import Mathlib

/-!
Verification of the stdinout library (src/lib.rs): input/output stream
selectors and the exit-on-failure helper. The Rust code is embedded
shallowly: the two selector enums become inductive types, the fallible
stream-acquisition methods become functions over an explicit system state
(modelling the parts of the operating system that File::open and
File::create consult), and the or_exit trait methods become functions
returning an explicit process outcome (lines written to the error stream
plus a control effect: normal return, process exit, or panic).
-/

namespace Stdinout

/-- Kind of an operating-system I/O error, as in std::io::ErrorKind
(only the kinds relevant here). -/
inductive IoErrorKind : Type where
  | notFound
  | permissionDenied
  | other
deriving DecidableEq, Repr

/-- An I/O error: a kind plus a human-readable message, as in
std::io::Error. -/
structure IoError : Type where
  kind : IoErrorKind
  msg : String
deriving DecidableEq, Repr

/-- System state consulted by file open/create: the file contents at each
path (none when no file exists there), whether an existing file may be
opened for reading, and whether a file may be created at a path. -/
structure SysState : Type where
  files : String → Option (List Nat)
  readPerm : String → Bool
  writePerm : String → Bool

/-- A handle to a file opened for reading: the path and the content read
from it. Models std::fs::File opened by File::open. -/
structure ReadHandle : Type where
  path : String
  content : List Nat
deriving DecidableEq, Repr

/-- Environment model of std::fs::File::open: fails with a not-found
error when no file exists at the path, with a permission error when the
file may not be read, and otherwise yields a read handle on the content. -/
def fileOpen (s : SysState) (p : String) : Except IoError ReadHandle :=
  match s.files p with
  | none => Except.error ⟨IoErrorKind.notFound, "No such file or directory"⟩
  | some content =>
    if s.readPerm p then Except.ok ⟨p, content⟩
    else Except.error ⟨IoErrorKind.permissionDenied, "Permission denied"⟩

/-- The state after File::create succeeds at path p: the file at p now
exists with empty content (created, or truncated when it existed). -/
def truncateAt (s : SysState) (p : String) : SysState :=
  { s with files := fun q => if q = p then some [] else s.files q }

/-- The handle produced by Output::write: either the locked standard
output stream (stdout.lock()) or a file created for writing. -/
inductive WriteHandle : Type where
  | stdoutLock
  | fileWriter (path : String)
deriving DecidableEq, Repr

/-- Environment model of std::fs::File::create: fails with a permission
error when the path may not be written, and otherwise creates the file,
truncating any previous content, and yields a write handle. -/
def fileCreate (s : SysState) (p : String) : Except IoError (WriteHandle × SysState) :=
  if s.writePerm p then Except.ok (WriteHandle.fileWriter p, truncateAt s p)
  else Except.error ⟨IoErrorKind.permissionDenied, "Permission denied"⟩

/-- The enum Input from src/lib.rs. The Stdin variant holds io::Stdin, a
stateless handle to the global standard input stream, modelled as a
payload-free constructor; the File variant owns a path (PathBuf,
modelled as String). -/
inductive Input : Type where
  | stdin
  | file (path : String)
deriving DecidableEq, Repr

/-- Embeds Input::from (named fromOpt because from is reserved in Lean).
The generic bound P: Into of PathBuf is modelled by an explicit
conversion function. Some path selects the File variant holding the
converted path; None selects Stdin holding io::stdin(). Pure: no state
is consulted and no error can be produced. -/
def Input.fromOpt {P : Type} (into : P → String) : Option P → Input
  | some path => Input.file (into path)
  | none => Input.stdin

/-- The reader produced by Input::buf_read: a boxed BufRead that is
either the locked standard input (stdin.lock(), itself buffered) or a
BufReader over an opened file. -/
inductive InputReader : Type where
  | stdinLock
  | fileReader (handle : ReadHandle)
deriving DecidableEq, Repr

/-- Embeds Input::buf_read. For Stdin it locks the standard input and
always succeeds; for File it opens the file at the stored path (the one
fallible step) and wraps it in a BufReader, surfacing any open error
unchanged. The method takes the selector by shared reference, so the
selector itself is not modified. -/
def Input.buf_read : Input → SysState → Except IoError InputReader
  | Input.stdin, _ => Except.ok InputReader.stdinLock
  | Input.file p, s => (fileOpen s p).map InputReader.fileReader

/-- True exactly on the Stdin variant. -/
def Input.isStdin : Input → Bool
  | Input.stdin => true
  | Input.file _ => false

/-- True exactly on the File variant. -/
def Input.isFile : Input → Bool
  | Input.stdin => false
  | Input.file _ => true

/-- A buf_read call viewed as a method on the selector: its result paired
with the selector as it stands after the call. The receiver is a shared
borrow in the source, so the selector after the call is the selector
before it. -/
def Input.buf_read_call (i : Input) (s : SysState) :
    Except IoError InputReader × Input :=
  (i.buf_read s, i)

/-- The enum Output from src/lib.rs, symmetric to Input. -/
inductive Output : Type where
  | stdout
  | file (path : String)
deriving DecidableEq, Repr

/-- Embeds Output::from, the same selection rule as Input::from. -/
def Output.fromOpt {P : Type} (into : P → String) : Option P → Output
  | some path => Output.file (into path)
  | none => Output.stdout

/-- Embeds Output::write. For Stdout it locks the standard output and
always succeeds, leaving the system state unchanged; for File it calls
File::create on the stored path, which creates or truncates the file and
can fail, the error being returned unchanged. -/
def Output.write : Output → SysState → Except IoError (WriteHandle × SysState)
  | Output.stdout, s => Except.ok (WriteHandle.stdoutLock, s)
  | Output.file p, s => fileCreate s p

/-- True exactly on the Stdout variant. -/
def Output.isStdout : Output → Bool
  | Output.stdout => true
  | Output.file _ => false

/-- True exactly on the File variant. -/
def Output.isFile : Output → Bool
  | Output.stdout => false
  | Output.file _ => true

/-- A write call viewed as a method on the selector: its result paired
with the selector as it stands after the call (unchanged, as the
receiver is a shared borrow). -/
def Output.write_call (o : Output) (s : SysState) :
    Except IoError (WriteHandle × SysState) × Output :=
  (o.write s, o)

/-- Control effect of an or_exit call: a normal return carrying the
unwrapped value, a process::exit with a status code, or a panic (the
expect call in the stderr helper) with its message. -/
inductive Control (R : Type) : Type where
  | ret (val : R)
  | exit (code : Int)
  | panic (msg : String)
deriving DecidableEq, Repr

/-- Observable outcome of an or_exit call: the lines written to the
standard error stream, and the control effect. -/
structure ProcOutcome (R : Type) : Type where
  stderrLines : List String
  control : Control R
deriving DecidableEq, Repr

/-- Embeds the OrExit impl for Result (Except). The Display bound on the
error type is modelled by an explicit display function, and whether the
write to the standard error stream succeeds is an environment parameter
stderrOk. On Ok the value is returned with no output; on Err the stderr
helper runs writeln and then expect, so when the write succeeds one line
description ++ ": " ++ display err is emitted and the process exits with
the code, and when the write fails the expect call panics before
process::exit is reached. -/
def Except.or_exit {R E : Type} (res : Except E R) (display : E → String)
    (description : String) (code : Int) (stderrOk : Bool) : ProcOutcome R :=
  match res with
  | Except.ok val => ⟨[], Control.ret val⟩
  | Except.error err =>
    if stderrOk then ⟨[description ++ ": " ++ display err], Control.exit code⟩
    else ⟨[], Control.panic "failed printing to stderr"⟩

/-- Embeds the OrExit impl for Option. On Some the value is returned
with no output; on None the message alone (no colon suffix) is written
and the process exits, with the same panic behaviour when the stderr
write fails. -/
def Option.or_exit {R : Type} (o : Option R)
    (description : String) (code : Int) (stderrOk : Bool) : ProcOutcome R :=
  match o with
  | some val => ⟨[], Control.ret val⟩
  | none =>
    if stderrOk then ⟨[description], Control.exit code⟩
    else ⟨[], Control.panic "failed printing to stderr"⟩

/-- A system state with no files, used as a concrete witness input. -/
def emptyFs : SysState :=
  ⟨fun _ => none, fun _ => true, fun _ => true⟩

/-- A system state where every path holds a two-byte file and every path
except "locked" is writable, used as a concrete witness input. -/
def richFs : SysState :=
  ⟨fun _ => some [104, 105], fun _ => true, fun q => q ≠ "locked"⟩

end Stdinout

namespace Stdinout

/-- Claim C1: Input.fromOpt selects the File variant, holding the
converted path, exactly when the optional path is present, and the Stdin
variant exactly when it is absent; it is a total pure function, so the
construction cannot fail for any path value. -/
theorem input_from_selects_by_presence {P : Type} (into : P → String) (p : Option P) :
    (Input.fromOpt into p).isFile = p.isSome ∧
    (Input.fromOpt into p).isStdin = p.isNone ∧
    (∀ q : P, Input.fromOpt into (some q) = Input.file (into q)) ∧
    Input.fromOpt into (none : Option P) = Input.stdin := by
  cases p <;> simp [Input.fromOpt, Input.isFile, Input.isStdin]

/-- Claim C2: Output.fromOpt selects the File variant, holding the
converted path, exactly when the optional path is present, and the
Stdout variant exactly when it is absent; it is a total pure function,
so the construction cannot fail for any path value. -/
theorem output_from_selects_by_presence {P : Type} (into : P → String) (p : Option P) :
    (Output.fromOpt into p).isFile = p.isSome ∧
    (Output.fromOpt into p).isStdout = p.isNone ∧
    (∀ q : P, Output.fromOpt into (some q) = Output.file (into q)) ∧
    Output.fromOpt into (none : Option P) = Output.stdout := by
  cases p <;> simp [Output.fromOpt, Output.isFile, Output.isStdout]

/-- Claim C3: or_exit on a success input (an Ok result or a Some option)
returns the contained value unchanged, writes nothing to the error
stream, and does not exit or panic, whatever the state of the error
stream. -/
theorem or_exit_success_identity {R E : Type} (v : R) (display : E → String)
    (msg : String) (code : Int) (stderrOk : Bool) :
    Except.or_exit (Except.ok v : Except E R) display msg code stderrOk
      = ⟨[], Control.ret v⟩ ∧
    Option.or_exit (some v) msg code stderrOk = ⟨[], Control.ret v⟩ := by
  constructor <;> rfl

/-- Claim C4: or_exit on an Err result, when the error stream accepts
the write, emits exactly one line of the form message ++ ": " ++
displayed error and then exits the process with the supplied code,
never returning a value. -/
theorem or_exit_result_failure_diagnostic {R E : Type} (e : E)
    (display : E → String) (msg : String) (code : Int) :
    Except.or_exit (Except.error e : Except E R) display msg code true
      = ⟨[msg ++ ": " ++ display e], Control.exit code⟩ := by
  rfl

/-- Claim C5: or_exit on a None option, when the error stream accepts
the write, emits exactly the message alone, with no colon suffix, and
then exits the process with the supplied code. -/
theorem or_exit_option_none_diagnostic {R : Type} (msg : String) (code : Int) :
    Option.or_exit (none : Option R) msg code true
      = ⟨[msg], Control.exit code⟩ := by
  rfl

/-- Claim C6: buf_read on the Stdin variant always succeeds, for every
system state, returning the locked (exclusive, buffered) handle on the
standard input stream; its error branch is unreachable. -/
theorem buf_read_stdin_always_succeeds (s : SysState) :
    Input.buf_read Input.stdin s = Except.ok InputReader.stdinLock := by
  rfl

/-- Claim C7: buf_read on the File variant surfaces any open failure on
the stored path unchanged as its own error result, and when no file
exists at the path that error has the not-found kind; being a total
function into a result type, it neither panics nor terminates the
process. -/
theorem buf_read_file_propagates_open_error (s : SysState) (p : String)
    (e : IoError) (h : fileOpen s p = Except.error e) :
    Input.buf_read (Input.file p) s = Except.error e ∧
    (s.files p = none → e.kind = IoErrorKind.notFound) := by
  constructor
  · simp [Input.buf_read, h, Except.map]
  · intro hn
    have : fileOpen s p
        = Except.error ⟨IoErrorKind.notFound, "No such file or directory"⟩ := by
      simp [fileOpen, hn]
    rw [h] at this
    cases this
    rfl

/-- Witness for claim C7 at a concrete state with no files: opening the
missing path fails with the not-found error and buf_read returns that
same error. -/
theorem buf_read_file_propagates_open_error_witness :
    fileOpen emptyFs "missing.txt"
      = Except.error ⟨IoErrorKind.notFound, "No such file or directory"⟩ ∧
    Input.buf_read (Input.file "missing.txt") emptyFs
      = Except.error ⟨IoErrorKind.notFound, "No such file or directory"⟩ :=
  ⟨rfl, (buf_read_file_propagates_open_error emptyFs "missing.txt" _ rfl).1⟩

/-- Claim C8: write on the Stdout variant always succeeds with the
locked standard output handle and leaves the system state unchanged; on
the File variant it creates the file at the stored path with empty
content, truncating whatever content was there before, whenever the
path is writable, and this holds for every prior state, so each repeated
write call truncates again; when the create fails the error is returned
as the result. -/
theorem write_stdout_ok_file_truncates (s : SysState) (p : String) :
    Output.write Output.stdout s = Except.ok (WriteHandle.stdoutLock, s) ∧
    (s.writePerm p = true →
      Output.write (Output.file p) s
        = Except.ok (WriteHandle.fileWriter p, truncateAt s p) ∧
      (truncateAt s p).files p = some []) ∧
    (s.writePerm p = false →
      Output.write (Output.file p) s
        = Except.error ⟨IoErrorKind.permissionDenied, "Permission denied"⟩) := by
  refine ⟨rfl, ?_, ?_⟩
  · intro hw
    constructor
    · simp [Output.write, fileCreate, hw]
    · simp [truncateAt]
  · intro hw
    simp [Output.write, fileCreate, hw]

/-- Witness for claim C8 at a concrete state where every path holds a
non-empty file: writing to "out.txt" succeeds and truncates it to empty
content, and writing to the non-writable path "locked" fails with a
permission error. -/
theorem write_stdout_ok_file_truncates_witness :
    (richFs.writePerm "out.txt" = true ∧
      Output.write (Output.file "out.txt") richFs
        = Except.ok (WriteHandle.fileWriter "out.txt", truncateAt richFs "out.txt") ∧
      (truncateAt richFs "out.txt").files "out.txt" = some []) ∧
    (richFs.writePerm "locked" = false ∧
      Output.write (Output.file "locked") richFs
        = Except.error ⟨IoErrorKind.permissionDenied, "Permission denied"⟩) := by
  refine ⟨⟨?_, (write_stdout_ok_file_truncates richFs "out.txt").2.1 ?_⟩,
          ⟨?_, (write_stdout_ok_file_truncates richFs "locked").2.2 ?_⟩⟩ <;>
    simp [richFs]

/-- Claim C9: every Input and Output selector is in exactly one variant
(the File test is the negation of the standard-stream test), and the
selector, including any stored path, is unchanged by a buf_read or write
call: the methods borrow the selector and return only their result. -/
theorem selector_variant_exclusive_and_fixed (i : Input) (o : Output) (s : SysState) :
    i.isFile = !i.isStdin ∧
    o.isFile = !o.isStdout ∧
    (Input.buf_read_call i s).2 = i ∧
    (Output.write_call o s).2 = o := by
  refine ⟨?_, ?_, rfl, rfl⟩ <;>
    first
      | cases i <;> rfl
      | cases o <;> rfl

/-- Claim C10: in the failure branch of or_exit, for both the Result and
the Option implementations, the control effect is an exit with the
supplied code exactly when the write to the error stream succeeds; when
that write fails, the expect call in the stderr helper panics with
"failed printing to stderr" and the supplied exit code is never
reached. -/
theorem or_exit_stderr_failure_panics {R E : Type} (e : E)
    (display : E → String) (msg : String) (code : Int) (stderrOk : Bool) :
    (Except.or_exit (Except.error e : Except E R) display msg code stderrOk).control
      = (if stderrOk then Control.exit code
         else Control.panic "failed printing to stderr") ∧
    (Option.or_exit (none : Option R) msg code stderrOk).control
      = (if stderrOk then Control.exit code
         else Control.panic "failed printing to stderr") := by
  cases stderrOk <;> simp [Except.or_exit, Option.or_exit]

end Stdinout
